import Mathlib

/-!
Shallow embedding of `src/dbcontroller/controller.py` from wkrzos/parked:
an MQTT-to-PostgreSQL controller for a parking-access system. The database
is modelled as lists of rows; each handler is a total function from the
persistent database state and the decoded message body to the new
persistent state together with the optionally published response.

Exceptions raised by the database driver are modelled by a fault oracle
`fault : Nat → Bool`: every psycopg2 call in a handler's `try` block is
numbered, and the call raises when the oracle says so; constraint
violations (unique and foreign keys) raise deterministically. The `try`
body of each handler is a function into `Except Unit`, and the handler
wraps it exactly as the Python `try/except/finally` does: on `error` the
transaction's effects are discarded (psycopg2 rollback / close-without-
commit) and the persistent state is unchanged.
-/

namespace Parked

/-- A row of the `card` table: `card(id, card_code unique, user_id nullable FK)`. -/
structure Card where
  id : Nat
  code : String
  userId : Option Nat
deriving DecidableEq, Repr

/-- A row of the `parking_user` table: `parking_user(id, username unique, password, email)`. -/
structure PUser where
  id : Nat
  username : String
  password : String
  email : String
deriving DecidableEq, Repr

/-- A row of the `gate_log` table: `gate_log(gate_id, card_id FK, is_entry bool, status text)`. -/
structure GateLog where
  gateId : Nat
  cardId : Nat
  isEntry : Bool
  status : String
deriving DecidableEq, Repr

/-- The persistent database state: the three tables plus the id sequences
backing the serial primary keys of `parking_user` and `card`. -/
structure DB where
  cards : List Card
  users : List PUser
  gateLog : List GateLog
  nextUserId : Nat
  nextCardId : Nat
deriving DecidableEq, Repr

/-- A decoded message body. Each field is `none` when the key is absent
(`body.get` returning `None` in Python). -/
structure Body where
  card_uuid : Option String
  username : Option String
  action : Option String
deriving DecidableEq, Repr

/-- An outgoing bus message as assembled by `build_message`:
the header, the constant sender identity, and the body fields. -/
structure Response where
  header : String
  sender : String
  action : String
  status : Bool
  card_uuid : String
  user : String
deriving DecidableEq, Repr

/-- Modelled from the spec: `SENDER_NAME` from `consts.py` (not under `src/`),
"the constant sender label this controller stamps on its own publications".
Its concrete value is irrelevant to every claim; only its constancy matters. -/
def SENDER_NAME : String := "dbcontroller"

/-- Modelled from the spec: `REGISTER_RESPONSE_ACTIONS` from `consts.py`
(not under `src/`), the allowed Registration actions `{add, edit, delete}`. -/
def REGISTER_RESPONSE_ACTIONS : List String := ["add", "edit", "delete"]

/-- Modelled from the spec: `build_message` from `messenger.py` (not under
`src/`) encodes a response envelope, attaching the controller's own sender
identity. -/
def build_message (header action : String) (status : Bool) (card_uuid user : String) :
    Response :=
  ⟨header, SENDER_NAME, action, status, card_uuid, user⟩

/-- Python truthiness of an optional string field: `if not x` rejects both a
missing key and an empty string. -/
def truthy : Option String → Option String
  | none => none
  | some s => if s = "" then none else some s

/-- Implements `get_gate_id`: the hard-coded gate mapping, defaulting to 0. -/
def get_gate_id (gate_code : String) : Nat :=
  if gate_code = "entry_gate" then 1
  else if gate_code = "departure_gate" then 2
  else 0

/-- The query `SELECT id, user_id FROM card WHERE card_code = %s` with `fetchone`:
the first matching row, if any. -/
def selectCardByCode (db : DB) (code : String) : Option Card :=
  db.cards.find? (fun c => c.code = code)

/-- The query `SELECT username FROM parking_user WHERE id = %s` with `fetchone`; a
NULL `user_id` parameter compares as `id = NULL`, matching no row. -/
def selectUserById (db : DB) (uid : Option Nat) : Option PUser :=
  match uid with
  | none => none
  | some u => db.users.find? (fun p => p.id = u)

/-- The user name the entry/departure handlers resolve:
`user_row[0] if user_row else ""`. -/
def resolvedName (db : DB) (uid : Option Nat) : String :=
  match selectUserById db uid with
  | some p => p.username
  | none => ""

/-- The statement `INSERT INTO gate_log (gate_id, card_id, is_entry, status) VALUES …`. -/
def insertGateLog (db : DB) (gateId cardId : Nat) (isEntry : Bool) (status : String) : DB :=
  { db with gateLog := db.gateLog ++ [⟨gateId, cardId, isEntry, status⟩] }

/-- Whether a username is already present (the `username unique` constraint). -/
def usernameTaken (db : DB) (u : String) : Bool :=
  db.users.any (fun p => p.username = u)

/-- Whether a card code is already present (the `card_code unique` constraint). -/
def cardCodeTaken (db : DB) (c : String) : Bool :=
  db.cards.any (fun k => k.code = c)

/-- The default email derived in the `add` branch: the username with spaces
removed and lower-cased, followed by the literal suffix. -/
def defaultEmail (username : String) : String :=
  ((username.replace " " "").toLower) ++ "@example.com"

/-- The statement `INSERT INTO parking_user (username, password, email) VALUES … RETURNING id`.
Raises (`error`) on a unique-constraint violation of `username`. -/
def insertUser (db : DB) (username password email : String) :
    Except Unit (DB × Nat) :=
  if usernameTaken db username then .error ()
  else .ok
    ({ db with
        users := db.users ++ [⟨db.nextUserId, username, password, email⟩],
        nextUserId := db.nextUserId + 1 },
     db.nextUserId)

/-- The statement `INSERT INTO card (card_code, user_id) VALUES …`. Raises on a
unique-constraint violation of `card_code` or a foreign-key violation of
`user_id` (modelled from the spec: schema `card(id, card_code unique,
user_id nullable FK)` is repository DDL outside `src/`). -/
def insertCard (db : DB) (code : String) (uid : Option Nat) : Except Unit DB :=
  if cardCodeTaken db code then .error ()
  else
    match uid with
    | none =>
        .ok { db with
                cards := db.cards ++ [⟨db.nextCardId, code, none⟩],
                nextCardId := db.nextCardId + 1 }
    | some u =>
        if db.users.any (fun p => p.id = u) then
          .ok { db with
                  cards := db.cards ++ [⟨db.nextCardId, code, some u⟩],
                  nextCardId := db.nextCardId + 1 }
        else .error ()

/-- The statement `UPDATE card SET user_id = %s WHERE card_code = %s`. Raises on a
foreign-key violation of `user_id` (modelled from the spec, as for
`insertCard`); otherwise rewrites every matching row. -/
def updateCardOwner (db : DB) (code : String) (uid : Nat) : Except Unit DB :=
  if db.users.any (fun p => p.id = uid) then
    .ok { db with
            cards := db.cards.map (fun c =>
              if c.code = code then { c with userId := some uid } else c) }
  else .error ()

/-- The statement `DELETE FROM card WHERE card_code = %s`. -/
def deleteCardByCode (db : DB) (code : String) : DB :=
  { db with cards := db.cards.filter (fun c => c.code ≠ code) }

/-- The statement `DELETE FROM parking_user WHERE id = %s`. A NULL parameter matches no
row. Raises when a surviving `card.user_id` still references the row
(modelled from the spec: the `user_id nullable FK` of schema section 6, with
default restrict semantics — the spec's deletion-order remark "to respect
the ownership reference" presumes exactly this constraint). -/
def deleteUserById (db : DB) (uid : Option Nat) : Except Unit DB :=
  match uid with
  | none => .ok db
  | some u =>
      if db.cards.any (fun c => c.userId = some u) then .error ()
      else .ok { db with users := db.users.filter (fun p => p.id ≠ u) }

/-- The `try` body of `handle_entry` / `handle_departure` (they differ only
in the gate role and the direction flag). Operation numbering of the fault
oracle: 0 = `get_db_connection`, 1 = card SELECT, 2 = user SELECT,
3 = gate_log INSERT, 4 = `conn.commit()`. Returns the committed state,
the status, and the resolved user name; `error` is a raised exception. -/
def gateTry (fault : Nat → Bool) (db : DB) (code : String)
    (gateRole : String) (isEntry : Bool) :
    Except Unit (DB × Bool × String) :=
  if fault 0 then .error ()
  else if fault 1 then .error ()
  else
    match selectCardByCode db code with
    | none => .ok (db, false, "")
    | some card =>
        if fault 2 then .error ()
        else
          let username := resolvedName db card.userId
          if fault 3 then .error ()
          else if fault 4 then .error ()
          else .ok (insertGateLog db (get_gate_id gateRole) card.id isEntry "SUCCESS",
                    true, username)

/-- Implements `handle_entry`: returns the persistent database state after the call and
the published `database_status` response, or `none` when the handler
returns without publishing (missing/empty `card_uuid`). On an exception the
connection is closed uncommitted, so the persistent state is the input state
and the response carries `status = false`, `user = ""`. -/
def handle_entry (fault : Nat → Bool) (db : DB) (body : Body) :
    DB × Option Response :=
  match truthy body.card_uuid with
  | none => (db, none)
  | some code =>
      match gateTry fault db code "entry_gate" true with
      | .ok (db1, status, username) =>
          (db1, some (build_message "database_status" "entry" status code username))
      | .error _ =>
          (db, some (build_message "database_status" "entry" false code ""))

/-- Implements `handle_departure`: identical to `handle_entry` up to the gate role,
the direction flag and the reported action string. -/
def handle_departure (fault : Nat → Bool) (db : DB) (body : Body) :
    DB × Option Response :=
  match truthy body.card_uuid with
  | none => (db, none)
  | some code =>
      match gateTry fault db code "departure_gate" false with
      | .ok (db1, status, username) =>
          (db1, some (build_message "database_status" "departure" status code username))
      | .error _ =>
          (db, some (build_message "database_status" "departure" false code ""))

/-- The `add` branch of the registration `try` body. Fault numbering:
1 = user INSERT, 2 = card INSERT. -/
def regTryAdd (fault : Nat → Bool) (db : DB) (code uname : String) :
    Except Unit DB :=
  if fault 1 then .error ()
  else
    match insertUser db uname "defaultpassword" (defaultEmail uname) with
    | .error _ => .error ()
    | .ok (db1, uid) =>
        if fault 2 then .error ()
        else insertCard db1 code (some uid)

/-- The `edit` branch: resolve the user by name; if absent, log and no-op;
otherwise reassign the card (the printed `rowcount` has no effect).
Fault numbering: 1 = user SELECT, 2 = card UPDATE. -/
def regTryEdit (fault : Nat → Bool) (db : DB) (code uname : String) :
    Except Unit DB :=
  if fault 1 then .error ()
  else
    match db.users.find? (fun p => p.username = uname) with
    | none => .ok db
    | some p =>
        if fault 2 then .error ()
        else updateCardOwner db code p.id

/-- The `delete` branch: resolve the card; if absent, no-op; otherwise
delete the card row first, then its owning user row. Fault numbering:
1 = card SELECT, 2 = card DELETE, 3 = user DELETE. -/
def regTryDelete (fault : Nat → Bool) (db : DB) (code : String) :
    Except Unit DB :=
  if fault 1 then .error ()
  else
    match selectCardByCode db code with
    | none => .ok db
    | some card =>
        if fault 2 then .error ()
        else if fault 3 then .error ()
        else deleteUserById (deleteCardByCode db code) card.userId

/-- The whole `try` body of `handle_registration_response`: connect
(fault 0), run the action's branch, then `conn.commit()` (fault 9).
`error` is an exception answered by the explicit `conn.rollback()`. -/
def regTry (fault : Nat → Bool) (db : DB) (code uname act : String) :
    Except Unit DB :=
  if fault 0 then .error ()
  else
    match (if act = "add" then regTryAdd fault db code uname
           else if act = "edit" then regTryEdit fault db code uname
           else if act = "delete" then regTryDelete fault db code
           else .ok db) with
    | .error _ => .error ()
    | .ok db1 => if fault 9 then .error () else .ok db1

/-- Implements `handle_registration_response`: validates `card_uuid`, `username` and
`action` (returning silently when any is missing/invalid), runs the
transaction, and always publishes `{action, status, card_uuid, user}`.
`status` starts `False` and becomes `True` only after the commit, so an
exception (answered by rollback) reports `status = false`. -/
def handle_registration_response (fault : Nat → Bool) (db : DB) (body : Body) :
    DB × Option Response :=
  match truthy body.card_uuid with
  | none => (db, none)
  | some code =>
      match truthy body.username with
      | none => (db, none)
      | some uname =>
          match body.action with
          | none => (db, none)
          | some act =>
              if act ∈ REGISTER_RESPONSE_ACTIONS then
                match regTry fault db code uname act with
                | .ok db1 =>
                    (db1, some (build_message "registration_response" act true code uname))
                | .error _ =>
                    (db, some (build_message "registration_response" act false code uname))
              else (db, none)

/-- A decoded inbound envelope together with its MQTT topic. -/
structure Msg where
  topic : String
  header : Option String
  body : Body
  sender : Option String
deriving DecidableEq, Repr

/-- Implements `on_message`: drop own messages, check the topic, and route the header
to one of the three handlers; unknown headers and foreign topics are logged
and dropped. -/
def on_message (fault : Nat → Bool) (db : DB) (msg : Msg) :
    DB × Option Response :=
  if msg.sender = some SENDER_NAME then (db, none)
  else if msg.topic = "/database" then
    match msg.header with
    | some "entry" => handle_entry fault db msg.body
    | some "departure" => handle_departure fault db msg.body
    | some "registration_response" => handle_registration_response fault db msg.body
    | _ => (db, none)
  else (db, none)

/-- The fault-free oracle: no database call raises. -/
def noFault : Nat → Bool := fun _ => false

/-- Whether one card's `user_id` is NULL or references an existing
`parking_user` row of the given user table. -/
def cardOk (users : List PUser) (c : Card) : Bool :=
  match c.userId with
  | none => true
  | some u => users.any (fun p => p.id = u)

/-- The no-orphan invariant: every card's `user_id` is NULL or references an
existing `parking_user` row. -/
def noOrphanB (db : DB) : Bool :=
  db.cards.all (cardOk db.users)

/-- A small concrete database used to instantiate the theorems: one user
`alice` (id 5) owning one card `CARD1` (id 10). -/
def sampleDB : DB :=
  ⟨[⟨10, "CARD1", some 5⟩], [⟨5, "alice", "pw", "alice@example.com"⟩], [], 6, 11⟩

/-- C8: a message whose sender equals the controller's own published
identity (`SENDER_NAME`) is dropped before any routing: no handler runs, no
database state changes, and no response is published. -/
theorem claim_C8 (fault : Nat → Bool) (db : DB) (topic : String)
    (header : Option String) (body : Body) :
    on_message fault db ⟨topic, header, body, some SENDER_NAME⟩ = (db, none) := by
  simp [on_message]

/-- C9: a request missing a required body field — absent or empty
`card_uuid` for Entry/Departure; absent or empty `card_uuid` or `username`,
or an action outside `{add, edit, delete}`, for Registration — fails
locally: the handler returns the database unchanged and publishes nothing
(no connection is even attempted: the result is the same under the
always-raising fault oracle). -/
theorem claim_C9 (fault : Nat → Bool) (db : DB) (body : Body) :
    (truthy body.card_uuid = none →
      handle_entry fault db body = (db, none) ∧
      handle_departure fault db body = (db, none) ∧
      handle_registration_response fault db body = (db, none)) ∧
    (truthy body.username = none →
      handle_registration_response fault db body = (db, none)) ∧
    (∀ a, body.action = some a → a ∉ REGISTER_RESPONSE_ACTIONS →
      handle_registration_response fault db body = (db, none)) ∧
    (body.action = none →
      handle_registration_response fault db body = (db, none)) := by
  refine ⟨fun h => ?_, fun h => ?_, fun a ha hmem => ?_, fun h => ?_⟩
  · simp [handle_entry, handle_departure, handle_registration_response, h]
  · cases hcu : truthy body.card_uuid <;>
      simp [handle_registration_response, hcu, h]
  · cases hcu : truthy body.card_uuid <;>
      cases hun : truthy body.username <;>
        simp [handle_registration_response, hcu, hun, ha, hmem]
  · cases hcu : truthy body.card_uuid <;>
      cases hun : truthy body.username <;>
        simp [handle_registration_response, hcu, hun, h]

/-- Witness for C9 at the concrete body `{username: "alice", action: "add"}`
with `card_uuid` absent, under the always-raising fault oracle. -/
theorem claim_C9_witness :
    handle_entry (fun _ => true) sampleDB ⟨none, some "alice", some "add"⟩ =
      (sampleDB, none) ∧
    handle_departure (fun _ => true) sampleDB ⟨none, some "alice", some "add"⟩ =
      (sampleDB, none) ∧
    handle_registration_response (fun _ => true) sampleDB ⟨none, some "alice", some "add"⟩ =
      (sampleDB, none) :=
  (claim_C9 (fun _ => true) sampleDB ⟨none, some "alice", some "add"⟩).1 rfl

/-- C5: an Entry or Departure request for a code absent from the store
publishes a `status = false`, `user = ""` response, writes no gate_log row
and leaves every table unchanged — under every fault oracle, since both the
not-found path and every exception path produce the same output. -/
theorem claim_C5 (fault : Nat → Bool) (db : DB) (body : Body) (code : String)
    (hb : body.card_uuid = some code) (hc : code ≠ "")
    (habs : selectCardByCode db code = none) :
    handle_entry fault db body =
      (db, some (build_message "database_status" "entry" false code "")) ∧
    handle_departure fault db body =
      (db, some (build_message "database_status" "departure" false code "")) := by
  cases h0 : fault 0 <;> cases h1 : fault 1 <;>
    simp [handle_entry, handle_departure, truthy, hb, hc, gateTry, h0, h1, habs]

/-- Witness for C5 at the concrete code "NOPE", absent from `sampleDB`. -/
theorem claim_C5_witness :
    selectCardByCode sampleDB "NOPE" = none ∧
    (handle_entry noFault sampleDB ⟨some "NOPE", none, none⟩ =
      (sampleDB, some (build_message "database_status" "entry" false "NOPE" "")) ∧
     handle_departure noFault sampleDB ⟨some "NOPE", none, none⟩ =
      (sampleDB, some (build_message "database_status" "departure" false "NOPE" ""))) :=
  ⟨rfl, claim_C5 noFault sampleDB ⟨some "NOPE", none, none⟩ "NOPE" rfl (by decide) rfl⟩

/-- C3: if the Entry/Departure transaction raises (modelled by the `try`
body returning `error`), the persistent database is unchanged — no partial
gate_log row persists — the handler still returns normally (it is a total
function, so nothing is re-raised to the dispatch loop), and the published
response has `status = false` and `user = ""`. -/
theorem claim_C3 (fault : Nat → Bool) (db : DB) (body : Body) (code : String)
    (hb : body.card_uuid = some code) (hc : code ≠ "")
    (hE : gateTry fault db code "entry_gate" true = .error ())
    (hD : gateTry fault db code "departure_gate" false = .error ()) :
    handle_entry fault db body =
      (db, some (build_message "database_status" "entry" false code "")) ∧
    handle_departure fault db body =
      (db, some (build_message "database_status" "departure" false code "")) := by
  simp [handle_entry, handle_departure, truthy, hb, hc, hE, hD]

/-- Witness for C3 under the always-raising fault oracle (the connection
attempt itself raises) at the concrete code "CARD1". -/
theorem claim_C3_witness :
    gateTry (fun _ => true) sampleDB "CARD1" "entry_gate" true = .error () ∧
    gateTry (fun _ => true) sampleDB "CARD1" "departure_gate" false = .error () ∧
    (handle_entry (fun _ => true) sampleDB ⟨some "CARD1", none, none⟩ =
      (sampleDB, some (build_message "database_status" "entry" false "CARD1" "")) ∧
     handle_departure (fun _ => true) sampleDB ⟨some "CARD1", none, none⟩ =
      (sampleDB, some (build_message "database_status" "departure" false "CARD1" ""))) :=
  ⟨rfl, rfl,
   claim_C3 (fun _ => true) sampleDB ⟨some "CARD1", none, none⟩ "CARD1" rfl (by decide)
     rfl rfl⟩

/-- C2: if the Registration transaction raises (the `try` body returns
`error`), the explicit rollback leaves the persistent database exactly as
before — in particular an `add` whose card INSERT fails after the user
INSERT persists no orphan user — and a response is still published with
`status = false`. -/
theorem claim_C2 (fault : Nat → Bool) (db : DB) (body : Body) (code uname act : String)
    (hcu : truthy body.card_uuid = some code)
    (hun : truthy body.username = some uname)
    (ha : body.action = some act)
    (hact : act ∈ REGISTER_RESPONSE_ACTIONS)
    (herr : regTry fault db code uname act = .error ()) :
    handle_registration_response fault db body =
      (db, some (build_message "registration_response" act false code uname)) := by
  simp [handle_registration_response, hcu, hun, ha, hact, herr]

/-- Witness for C2: fault-free `add` of the already-present code "CARD1":
the user INSERT succeeds, the card INSERT violates the unique constraint
and raises, and the committed state is unchanged (no orphan "newuser"). -/
theorem claim_C2_witness :
    regTry noFault sampleDB "CARD1" "newuser" "add" = .error () ∧
    handle_registration_response noFault sampleDB ⟨some "CARD1", some "newuser", some "add"⟩ =
      (sampleDB, some (build_message "registration_response" "add" false "CARD1" "newuser")) :=
  ⟨rfl,
   claim_C2 noFault sampleDB ⟨some "CARD1", some "newuser", some "add"⟩ "CARD1" "newuser"
     "add" rfl rfl rfl (by decide) rfl⟩

/-- Mapping a function that fixes every element of a list is the identity. -/
theorem map_eq_self_of_mem {α : Type} {l : List α} {f : α → α}
    (h : ∀ a ∈ l, f a = a) : l.map f = l := by
  induction l with
  | nil => rfl
  | cons x xs ih =>
    simp only [List.map_cons, h x (by simp)]
    rw [ih (fun a ha => h a (by simp [ha]))]

/-- C4: for a code present in the store, a fault-free Entry appends exactly
one gate_log row `(gate 1, card id, is_entry = true, "SUCCESS")` and a
fault-free Departure appends exactly one row
`(gate 2, card id, is_entry = false, "SUCCESS")`; each publishes
`{action, status: true, card_uuid, user: resolved name}` and changes no
other table. -/
theorem claim_C4 (db : DB) (body : Body) (code : String) (card : Card)
    (hb : body.card_uuid = some code) (hc : code ≠ "")
    (hcard : selectCardByCode db code = some card) :
    handle_entry noFault db body =
      ({ db with gateLog := db.gateLog ++ [⟨1, card.id, true, "SUCCESS"⟩] },
       some (build_message "database_status" "entry" true code
              (resolvedName db card.userId))) ∧
    handle_departure noFault db body =
      ({ db with gateLog := db.gateLog ++ [⟨2, card.id, false, "SUCCESS"⟩] },
       some (build_message "database_status" "departure" true code
              (resolvedName db card.userId))) := by
  simp [handle_entry, handle_departure, truthy, hb, hc, gateTry, noFault, hcard,
        insertGateLog, get_gate_id]

/-- Witness for C4 at the concrete code "CARD1" of `sampleDB`, whose owner
resolves to "alice". -/
theorem claim_C4_witness :
    selectCardByCode sampleDB "CARD1" = some ⟨10, "CARD1", some 5⟩ ∧
    (handle_entry noFault sampleDB ⟨some "CARD1", none, none⟩ =
      ({ sampleDB with gateLog := sampleDB.gateLog ++ [⟨1, 10, true, "SUCCESS"⟩] },
       some (build_message "database_status" "entry" true "CARD1"
              (resolvedName sampleDB (some 5)))) ∧
     handle_departure noFault sampleDB ⟨some "CARD1", none, none⟩ =
      ({ sampleDB with gateLog := sampleDB.gateLog ++ [⟨2, 10, false, "SUCCESS"⟩] },
       some (build_message "database_status" "departure" true "CARD1"
              (resolvedName sampleDB (some 5))))) :=
  ⟨rfl,
   claim_C4 sampleDB ⟨some "CARD1", none, none⟩ "CARD1" ⟨10, "CARD1", some 5⟩ rfl
     (by decide) rfl⟩

/-- C6: a fault-free Registration `add` with fresh card code `x` and fresh
username `u` creates exactly one user row `(nextUserId, u, "defaultpassword",
derived email)` and exactly one card row `(nextCardId, x)` bound to that
user, and publishes `{action: "add", status: true, card_uuid: x, user: u}`. -/
theorem claim_C6 (db : DB) (body : Body) (x u : String)
    (hb : body.card_uuid = some x) (hx : x ≠ "")
    (hun : body.username = some u) (hu : u ≠ "")
    (ha : body.action = some "add")
    (h1 : usernameTaken db u = false)
    (h2 : cardCodeTaken db x = false) :
    handle_registration_response noFault db body =
      ({ db with
          users := db.users ++ [⟨db.nextUserId, u, "defaultpassword", defaultEmail u⟩],
          cards := db.cards ++ [⟨db.nextCardId, x, some db.nextUserId⟩],
          nextUserId := db.nextUserId + 1,
          nextCardId := db.nextCardId + 1 },
       some (build_message "registration_response" "add" true x u)) := by
  have h1' : ¬ ∃ p ∈ db.users, p.username = u := by
    simpa [usernameTaken] using h1
  have h2' : ¬ ∃ k ∈ db.cards, k.code = x := by
    simpa [cardCodeTaken] using h2
  simp [handle_registration_response, truthy, hb, hun, ha, hx, hu,
        REGISTER_RESPONSE_ACTIONS, regTry, regTryAdd, noFault, insertUser,
        usernameTaken, h1', insertCard, cardCodeTaken, h2']

/-- Witness for C6: adding card "CARD2" for the fresh user "bob" to
`sampleDB`. -/
theorem claim_C6_witness :
    usernameTaken sampleDB "bob" = false ∧ cardCodeTaken sampleDB "CARD2" = false ∧
    handle_registration_response noFault sampleDB ⟨some "CARD2", some "bob", some "add"⟩ =
      ({ sampleDB with
          users := sampleDB.users ++
            [⟨sampleDB.nextUserId, "bob", "defaultpassword", defaultEmail "bob"⟩],
          cards := sampleDB.cards ++
            [⟨sampleDB.nextCardId, "CARD2", some sampleDB.nextUserId⟩],
          nextUserId := sampleDB.nextUserId + 1,
          nextCardId := sampleDB.nextCardId + 1 },
       some (build_message "registration_response" "add" true "CARD2" "bob")) :=
  ⟨rfl, rfl,
   claim_C6 sampleDB ⟨some "CARD2", some "bob", some "add"⟩ "CARD2" "bob" rfl (by decide)
     rfl (by decide) rfl rfl rfl⟩

/-- Counterexample to C7 as stated: on `sampleDB` (user "alice" only), a
Registration `edit` naming the unknown user "bob" publishes `status = true`
— not the pre-handler default `false` the claim asserts — because the no-op
path still reaches `conn.commit()` and then sets the status to true. -/
theorem claim_C7_counterexample :
    (handle_registration_response noFault sampleDB
        ⟨some "CARD1", some "bob", some "edit"⟩).2 =
      some (build_message "registration_response" "edit" true "CARD1" "bob") ∧
    ¬ (handle_registration_response noFault sampleDB
        ⟨some "CARD1", some "bob", some "edit"⟩).2 =
      some (build_message "registration_response" "edit" false "CARD1" "bob") := by
  exact ⟨rfl, by decide⟩

/-- C7 amended: a fault-free Registration `edit` whose username matches no
existing user is a no-op — no row changes, the transaction still commits,
the card keeps its previous owner — and a response is still published, with
`status = true` (the commit path sets status to true; the pre-handler
default `false` is reported only when the transaction raises). -/
theorem claim_C7_amended (db : DB) (body : Body) (code uname : String)
    (hcu : body.card_uuid = some code) (hc : code ≠ "")
    (hun : body.username = some uname) (hu : uname ≠ "")
    (ha : body.action = some "edit")
    (hnouser : db.users.find? (fun p => p.username = uname) = none) :
    handle_registration_response noFault db body =
      (db, some (build_message "registration_response" "edit" true code uname)) := by
  simp [handle_registration_response, truthy, hcu, hun, hc, hu, ha,
        REGISTER_RESPONSE_ACTIONS, regTry, regTryEdit, noFault, hnouser]

/-- Witness for the amended C7: editing "CARD1" to the unknown user "bob"
on `sampleDB`. -/
theorem claim_C7_witness :
    sampleDB.users.find? (fun p => p.username = "bob") = none ∧
    handle_registration_response noFault sampleDB ⟨some "CARD1", some "bob", some "edit"⟩ =
      (sampleDB, some (build_message "registration_response" "edit" true "CARD1" "bob")) :=
  ⟨rfl,
   claim_C7_amended sampleDB ⟨some "CARD1", some "bob", some "edit"⟩ "CARD1" "bob" rfl
     (by decide) rfl (by decide) rfl rfl⟩

/-- C10: a fault-free Registration `edit` whose user exists but whose card
code matches no row, and a fault-free Registration `delete` whose card code
matches no row (whether or not the username names an existing user — the
delete branch never reads it), both leave the database unchanged, still
commit, and publish `status = true`. -/
theorem claim_C10 (db : DB) (code uname : String)
    (hc : code ≠ "") (hu : uname ≠ "")
    (hcard : selectCardByCode db code = none) :
    (∀ p, db.users.find? (fun q => q.username = uname) = some p →
      handle_registration_response noFault db ⟨some code, some uname, some "edit"⟩ =
        (db, some (build_message "registration_response" "edit" true code uname))) ∧
    handle_registration_response noFault db ⟨some code, some uname, some "delete"⟩ =
      (db, some (build_message "registration_response" "delete" true code uname)) := by
  have hnone : db.cards.find? (fun c => c.code = code) = none := hcard
  constructor
  · intro p hfind
    have hmem : p ∈ db.users := List.mem_of_find?_eq_some hfind
    have hfk : db.users.any (fun q => q.id = p.id) = true := by
      simp only [List.any_eq_true]
      exact ⟨p, hmem, by simp⟩
    have hmap : db.cards.map
        (fun c => if c.code = code then { c with userId := some p.id } else c) = db.cards := by
      apply map_eq_self_of_mem
      intro c hcmem
      have hne := List.find?_eq_none.mp hnone c hcmem
      simp at hne
      simp [hne]
    simp [handle_registration_response, truthy, hc, hu, REGISTER_RESPONSE_ACTIONS,
          regTry, regTryEdit, noFault, hfind, updateCardOwner, hfk, hmap]
  · simp [handle_registration_response, truthy, hc, hu, REGISTER_RESPONSE_ACTIONS,
          regTry, regTryDelete, noFault, hcard]

/-- Witness for C10: editing/deleting the absent code "CARD2" with the user
"alice" on `sampleDB` (who exists, discharging the edit conjunct's
user-resolution premise; the delete conjunct needs no such premise). -/
theorem claim_C10_witness :
    selectCardByCode sampleDB "CARD2" = none ∧
    ((∀ p, sampleDB.users.find? (fun q => q.username = "alice") = some p →
        handle_registration_response noFault sampleDB
            ⟨some "CARD2", some "alice", some "edit"⟩ =
          (sampleDB,
           some (build_message "registration_response" "edit" true "CARD2" "alice"))) ∧
     handle_registration_response noFault sampleDB
         ⟨some "CARD2", some "alice", some "delete"⟩ =
      (sampleDB,
       some (build_message "registration_response" "delete" true "CARD2" "alice"))) :=
  ⟨rfl, claim_C10 sampleDB "CARD2" "alice" (by decide) (by decide) rfl⟩

/-- The invariant `noOrphanB` depends only on the card and user tables. -/
theorem noOrphanB_congr {db1 db2 : DB} (hc : db2.cards = db1.cards)
    (hu : db2.users = db1.users) (h : noOrphanB db1 = true) :
    noOrphanB db2 = true := by
  unfold noOrphanB at *
  rw [hc, hu]
  exact h

/-- A successful gate transaction only appends to `gate_log`: the card and
user tables are untouched. -/
theorem gateTry_ok_tables {fault : Nat → Bool} {db : DB} {code role : String}
    {dir : Bool} {db1 : DB} {s : Bool} {n : String}
    (h : gateTry fault db code role dir = .ok (db1, s, n)) :
    db1.cards = db.cards ∧ db1.users = db.users := by
  unfold gateTry at h
  cases h0 : fault 0 <;> rw [h0] at h <;> simp at h
  cases h1 : fault 1 <;> rw [h1] at h <;> simp at h
  cases hsel : selectCardByCode db code <;> rw [hsel] at h <;> simp at h
  · obtain ⟨hdb, -, -⟩ := h
    subst hdb
    exact ⟨rfl, rfl⟩
  · cases h2 : fault 2 <;> rw [h2] at h <;> simp at h
    cases h3 : fault 3 <;> rw [h3] at h <;> simp at h
    cases h4 : fault 4 <;> rw [h4] at h <;> simp at h
    obtain ⟨hdb, -, -⟩ := h
    subst hdb
    simp [insertGateLog]

/-- Appending users cannot break a card's ownership reference. -/
theorem cardOk_users_append {users more : List PUser} {c : Card}
    (h : cardOk users c = true) : cardOk (users ++ more) c = true := by
  unfold cardOk at h ⊢
  cases hc : c.userId with
  | none => rfl
  | some u =>
    rw [hc] at h
    dsimp only at h ⊢
    simp only [List.any_append, h, Bool.true_or]

/-- The card and user tables after a successful user INSERT. -/
theorem insertUser_ok {db : DB} {un pw em : String} {db1 : DB} {uid : Nat}
    (h : insertUser db un pw em = .ok (db1, uid)) :
    db1.cards = db.cards ∧ db1.users = db.users ++ [⟨db.nextUserId, un, pw, em⟩] ∧
    uid = db.nextUserId := by
  unfold insertUser at h
  split at h
  · exact absurd h (by simp)
  · rw [Except.ok.injEq, Prod.mk.injEq] at h
    obtain ⟨h1, h2⟩ := h
    subst h1
    subst h2
    exact ⟨rfl, rfl, rfl⟩

/-- The card and user tables after a successful card INSERT. -/
theorem insertCard_ok {db : DB} {code : String} {uid : Option Nat} {db1 : DB}
    (h : insertCard db code uid = .ok db1) :
    db1.cards = db.cards ++ [⟨db.nextCardId, code, uid⟩] ∧ db1.users = db.users := by
  unfold insertCard at h
  split at h
  · exact absurd h (by simp)
  split at h
  · rw [Except.ok.injEq] at h
    subst h
    exact ⟨rfl, rfl⟩
  · split at h
    · rw [Except.ok.injEq] at h
      subst h
      exact ⟨rfl, rfl⟩
    · exact absurd h (by simp)

/-- A successful `add` branch preserves the no-orphan invariant: the new
card references the freshly inserted user. -/
theorem regTryAdd_ok_noOrphan {fault : Nat → Bool} {db : DB} {code uname : String}
    {db1 : DB} (h : regTryAdd fault db code uname = .ok db1)
    (hinv : noOrphanB db = true) : noOrphanB db1 = true := by
  unfold regTryAdd at h
  split at h
  · exact absurd h (by simp)
  cases hiu : insertUser db uname "defaultpassword" (defaultEmail uname) with
  | error e =>
    rw [hiu] at h
    exact absurd h (by simp)
  | ok pr =>
    obtain ⟨dbU, uid⟩ := pr
    rw [hiu] at h
    dsimp only at h
    split at h
    · exact absurd h (by simp)
    obtain ⟨hcc, hcu⟩ := insertCard_ok h
    obtain ⟨huc, huu, huid⟩ := insertUser_ok hiu
    subst huid
    unfold noOrphanB at hinv ⊢
    rw [hcc, hcu, huc, huu]
    simp only [List.all_append, List.all_cons, List.all_nil, Bool.and_true, Bool.and_eq_true]
    constructor
    · rw [List.all_eq_true] at hinv ⊢
      intro c hc
      exact cardOk_users_append (hinv c hc)
    · simp [cardOk, List.any_append]

/-- A successful `edit` branch preserves the no-orphan invariant: the card
is reassigned to a user that was just resolved. -/
theorem regTryEdit_ok_noOrphan {fault : Nat → Bool} {db : DB} {code uname : String}
    {db1 : DB} (h : regTryEdit fault db code uname = .ok db1)
    (hinv : noOrphanB db = true) : noOrphanB db1 = true := by
  unfold regTryEdit updateCardOwner at h
  split at h
  · exact absurd h (by simp)
  split at h
  · rw [Except.ok.injEq] at h
    subst h
    exact hinv
  rename_i p hp
  split at h
  · exact absurd h (by simp)
  split at h
  case isTrue hfk =>
    rw [Except.ok.injEq] at h
    subst h
    unfold noOrphanB at hinv ⊢
    simp only [List.all_map]
    rw [List.all_eq_true] at hinv ⊢
    intro c hc
    by_cases hcode : c.code = code
    · simp only [Function.comp_apply, hcode, if_pos rfl]
      simpa [cardOk] using hfk
    · simp only [Function.comp_apply, if_neg hcode]
      exact hinv c hc
  · exact absurd h (by simp)

/-- A successful `delete` branch preserves the no-orphan invariant: the
user row is removed only after the foreign-key check found no surviving
card referencing it. -/
theorem regTryDelete_ok_noOrphan {fault : Nat → Bool} {db : DB} {code : String}
    {db1 : DB} (h : regTryDelete fault db code = .ok db1)
    (hinv : noOrphanB db = true) : noOrphanB db1 = true := by
  unfold regTryDelete deleteUserById at h
  split at h
  · exact absurd h (by simp)
  split at h
  · rw [Except.ok.injEq] at h
    subst h
    exact hinv
  rename_i card hsel
  split at h
  · exact absurd h (by simp)
  split at h
  · exact absurd h (by simp)
  split at h
  · -- `card.user_id` is NULL: only the card row disappears.
    rw [Except.ok.injEq] at h
    subst h
    unfold noOrphanB at hinv ⊢
    rw [List.all_eq_true] at hinv ⊢
    intro c hc
    exact hinv c (List.mem_filter.mp hc).1
  rename_i u huid
  split at h
  · exact absurd h (by simp)
  case isFalse hfk =>
    rw [Except.ok.injEq] at h
    subst h
    unfold noOrphanB at hinv ⊢
    rw [List.all_eq_true] at hinv ⊢
    intro c hc
    have hcmem : c ∈ (deleteCardByCode db code).cards := hc
    have hcdb : c ∈ db.cards := (List.mem_filter.mp hcmem).1
    have hok := hinv c hcdb
    unfold cardOk at hok ⊢
    cases hcu : c.userId with
    | none => rfl
    | some v =>
      rw [hcu] at hok
      have hvne : v ≠ u := by
        intro he
        subst he
        apply hfk
        rw [List.any_eq_true]
        exact ⟨c, hcmem, by simp [hcu]⟩
      rw [List.any_eq_true] at hok ⊢
      obtain ⟨p, hpmem, hpv⟩ := hok
      refine ⟨p, List.mem_filter.mpr ⟨hpmem, ?_⟩, hpv⟩
      simp only [decide_eq_true_eq] at hpv ⊢
      rw [hpv]
      simpa using hvne

/-- A committed registration transaction preserves the no-orphan invariant,
whatever the action. -/
theorem regTry_ok_noOrphan {fault : Nat → Bool} {db : DB} {code uname act : String}
    {db1 : DB} (h : regTry fault db code uname act = .ok db1)
    (hinv : noOrphanB db = true) : noOrphanB db1 = true := by
  unfold regTry at h
  split at h
  · exact absurd h (by simp)
  split at h
  · exact absurd h (by simp)
  rename_i db2 hbr
  split at h
  · exact absurd h (by simp)
  rw [Except.ok.injEq] at h
  subst h
  by_cases ha : act = "add"
  · rw [if_pos ha] at hbr
    exact regTryAdd_ok_noOrphan hbr hinv
  rw [if_neg ha] at hbr
  by_cases he : act = "edit"
  · rw [if_pos he] at hbr
    exact regTryEdit_ok_noOrphan hbr hinv
  rw [if_neg he] at hbr
  by_cases hd : act = "delete"
  · rw [if_pos hd] at hbr
    exact regTryDelete_ok_noOrphan hbr hinv
  rw [if_neg hd] at hbr
  rw [Except.ok.injEq] at hbr
  subst hbr
  exact hinv

/-- Handling an entry preserves the no-orphan invariant. -/
theorem handle_entry_noOrphan (fault : Nat → Bool) (db : DB) (body : Body)
    (hinv : noOrphanB db = true) :
    noOrphanB (handle_entry fault db body).1 = true := by
  unfold handle_entry
  cases ht : truthy body.card_uuid with
  | none => exact hinv
  | some code =>
    dsimp only
    cases hg : gateTry fault db code "entry_gate" true with
    | error e => exact hinv
    | ok res =>
      obtain ⟨db1, s, n⟩ := res
      exact noOrphanB_congr (gateTry_ok_tables hg).1 (gateTry_ok_tables hg).2 hinv

/-- Handling a departure preserves the no-orphan invariant. -/
theorem handle_departure_noOrphan (fault : Nat → Bool) (db : DB) (body : Body)
    (hinv : noOrphanB db = true) :
    noOrphanB (handle_departure fault db body).1 = true := by
  unfold handle_departure
  cases ht : truthy body.card_uuid with
  | none => exact hinv
  | some code =>
    dsimp only
    cases hg : gateTry fault db code "departure_gate" false with
    | error e => exact hinv
    | ok res =>
      obtain ⟨db1, s, n⟩ := res
      exact noOrphanB_congr (gateTry_ok_tables hg).1 (gateTry_ok_tables hg).2 hinv

/-- Handling a registration preserves the no-orphan invariant. -/
theorem handle_reg_noOrphan (fault : Nat → Bool) (db : DB) (body : Body)
    (hinv : noOrphanB db = true) :
    noOrphanB (handle_registration_response fault db body).1 = true := by
  unfold handle_registration_response
  cases hcu : truthy body.card_uuid with
  | none => exact hinv
  | some code =>
    dsimp only
    cases hun : truthy body.username with
    | none => exact hinv
    | some uname =>
      dsimp only
      cases ha : body.action with
      | none => exact hinv
      | some act =>
        dsimp only
        by_cases hmem : act ∈ REGISTER_RESPONSE_ACTIONS
        · rw [if_pos hmem]
          cases hr : regTry fault db code uname act with
          | error e => exact hinv
          | ok db1 => exact regTry_ok_noOrphan hr hinv
        · rw [if_neg hmem]
          exact hinv

/-- The registration transaction for action "delete" reduces to the
`delete` branch between the connect and commit fault points. -/
theorem regTry_delete_eq (fault : Nat → Bool) (db : DB) (code uname : String) :
    regTry fault db code uname "delete" =
      if fault 0 then .error ()
      else
        match regTryDelete fault db code with
        | .error _ => .error ()
        | .ok db1 => if fault 9 then .error () else .ok db1 := by
  unfold regTry
  simp

/-- A successful registration "delete" whose card was found removes that
card row and, with it, every user row its `user_id` referenced. -/
theorem reg_delete_removes_pair {fault : Nat → Bool} {db db1 : DB} {body : Body}
    {code uname : String} {r : Response} {card : Card}
    (hcu : truthy body.card_uuid = some code)
    (hun : truthy body.username = some uname)
    (ha : body.action = some "delete")
    (hrun : handle_registration_response fault db body = (db1, some r))
    (hst : r.status = true)
    (hcard : selectCardByCode db code = some card) :
    selectCardByCode db1 code = none ∧
    (∀ u, card.userId = some u → db1.users.all (fun p => p.id ≠ u) = true) := by
  unfold handle_registration_response at hrun
  rw [hcu] at hrun
  dsimp only at hrun
  rw [hun] at hrun
  dsimp only at hrun
  rw [ha] at hrun
  dsimp only at hrun
  rw [if_pos (show ("delete" : String) ∈ REGISTER_RESPONSE_ACTIONS by decide)] at hrun
  cases hr : regTry fault db code uname "delete" with
  | error e =>
    rw [hr] at hrun
    dsimp only at hrun
    rw [Prod.mk.injEq, Option.some.injEq] at hrun
    obtain ⟨-, hresp⟩ := hrun
    subst hresp
    simp [build_message] at hst
  | ok db2 =>
    rw [hr] at hrun
    dsimp only at hrun
    rw [Prod.mk.injEq, Option.some.injEq] at hrun
    obtain ⟨hdb, -⟩ := hrun
    subst hdb
    rw [regTry_delete_eq] at hr
    split at hr
    · exact absurd hr (by simp)
    split at hr
    · exact absurd hr (by simp)
    rename_i db3 hdel
    split at hr
    · exact absurd hr (by simp)
    rw [Except.ok.injEq] at hr
    subst hr
    unfold regTryDelete at hdel
    split at hdel
    · exact absurd hdel (by simp)
    rw [hcard] at hdel
    dsimp only at hdel
    split at hdel
    · exact absurd hdel (by simp)
    split at hdel
    · exact absurd hdel (by simp)
    unfold deleteUserById at hdel
    constructor
    · have hcards : db3.cards = (deleteCardByCode db code).cards := by
        split at hdel
        · rw [Except.ok.injEq] at hdel
          subst hdel
          rfl
        · split at hdel
          · exact absurd hdel (by simp)
          · rw [Except.ok.injEq] at hdel
            subst hdel
            rfl
      unfold selectCardByCode
      rw [hcards]
      unfold deleteCardByCode
      dsimp only
      rw [List.find?_eq_none]
      intro c hc
      simpa using (List.mem_filter.mp hc).2
    · intro u hu
      rw [hu] at hdel
      dsimp only at hdel
      split at hdel
      · exact absurd hdel (by simp)
      case isFalse hfk =>
        rw [Except.ok.injEq] at hdel
        subst hdel
        dsimp only
        rw [List.all_eq_true]
        intro p hp
        simpa using (List.mem_filter.mp hp).2

/-- C1: a Registration "delete" removes the card row and its owning user
row together, and every handler — Entry, Departure, Registration, under
every fault oracle — preserves the invariant that no card row is orphaned:
each surviving card's `user_id` is NULL or the id of a surviving
`parking_user` row. In particular a committed delete leaves no other card
referencing the deleted user, because the user DELETE raises (and the
transaction rolls back) whenever a surviving card still references it. -/
theorem claim_C1 (fault : Nat → Bool) (db : DB) (bE bD bR : Body)
    (hinv : noOrphanB db = true) :
    noOrphanB (handle_entry fault db bE).1 = true ∧
    noOrphanB (handle_departure fault db bD).1 = true ∧
    noOrphanB (handle_registration_response fault db bR).1 = true ∧
    (∀ code uname card db1 r,
      truthy bR.card_uuid = some code →
      truthy bR.username = some uname →
      bR.action = some "delete" →
      handle_registration_response fault db bR = (db1, some r) →
      r.status = true →
      selectCardByCode db code = some card →
      selectCardByCode db1 code = none ∧
      (∀ u, card.userId = some u → db1.users.all (fun p => p.id ≠ u) = true)) :=
  ⟨handle_entry_noOrphan fault db bE hinv,
   handle_departure_noOrphan fault db bD hinv,
   handle_reg_noOrphan fault db bR hinv,
   fun _ _ _ _ _ hcu hun ha hrun hst hcard =>
     reg_delete_removes_pair hcu hun ha hrun hst hcard⟩

/-- Witness for C1 on `sampleDB` (which satisfies the invariant), with a
gate request and a delete request for "CARD1". -/
theorem claim_C1_witness :
    noOrphanB sampleDB = true ∧
    (noOrphanB (handle_entry noFault sampleDB ⟨some "CARD1", none, none⟩).1 = true ∧
     noOrphanB (handle_departure noFault sampleDB ⟨some "CARD1", none, none⟩).1 = true ∧
     noOrphanB (handle_registration_response noFault sampleDB
        ⟨some "CARD1", some "alice", some "delete"⟩).1 = true ∧
     (∀ code uname card db1 r,
        truthy (Body.mk (some "CARD1") (some "alice") (some "delete")).card_uuid =
          some code →
        truthy (Body.mk (some "CARD1") (some "alice") (some "delete")).username =
          some uname →
        (Body.mk (some "CARD1") (some "alice") (some "delete")).action = some "delete" →
        handle_registration_response noFault sampleDB
          ⟨some "CARD1", some "alice", some "delete"⟩ = (db1, some r) →
        r.status = true →
        selectCardByCode sampleDB code = some card →
        selectCardByCode db1 code = none ∧
        (∀ u, card.userId = some u → db1.users.all (fun p => p.id ≠ u) = true))) :=
  ⟨by decide,
   claim_C1 noFault sampleDB ⟨some "CARD1", none, none⟩ ⟨some "CARD1", none, none⟩
     ⟨some "CARD1", some "alice", some "delete"⟩ (by decide)⟩

end Parked
